import Mathlib

/-!
# A verification of the planck-array math and joint kernels

Shallow embedding of the vector/matrix utilities (src/common/Matrix.ts,
src/common/Vec2.ts, src/common/Vec3.ts, src/common/Mat22.ts,
src/common/Mat33.ts), the AABB operations (src/collision/AABB.ts) and the
joint solver kernels (src/dynamics/joint/FrictionJoint.ts, WeldJoint.ts,
the PulleyJoint in the same file, and RopeJoint.ts).

Conventions of the embedding:

* JavaScript numbers are idealized as exact reals (every finite IEEE-754
  double is a real number; no rounding is modelled).  Functions whose
  behaviour hinges on the special values NaN/Infinity/undefined (the
  validity checks and `AABB.rayCast`) are embedded over `JNum`, an
  explicit model of a JavaScript number with those special values.
* Out-parameter functions (`f(out, ...)` writing into `out` and returning
  it) are embedded as pure functions returning the written value.
* Methods that mutate `this` are embedded as functions from the receiver
  state to the updated state; the bodies' `c_position`/`c_velocity`
  snapshots that the joint solvers read and write are fields of the
  embedded joint state.
* External constants that are not part of the provided sources
  (`Settings.linearSlop`, `EPSILON` from common/Math.ts) are taken as
  parameters; nothing proved below depends on their values.
-/

set_option maxHeartbeats 1000000

noncomputable section

abbrev Vec2 := ℝ × ℝ

abbrev Vec3 := ℝ × ℝ × ℝ

/-- Vec2.create from src/common/Vec2.ts: `return [ x, y ]`. -/
def Vec2.create (x y : ℝ) : Vec2 := (x, y)

/-- Vec2.zero from src/common/Vec2.ts: `return [ 0, 0 ]`. -/
def Vec2.zero : Vec2 := (0, 0)

/-- Vec2.add from src/common/Vec2.ts: `set(v[0] + w[0], v[1] + w[1], out)`. -/
def Vec2.add (v w : Vec2) : Vec2 := (v.1 + w.1, v.2 + w.2)

/-- Vec2.sub from src/common/Vec2.ts: `set(v[0] - w[0], v[1] - w[1], out)`. -/
def Vec2.sub (v w : Vec2) : Vec2 := (v.1 - w.1, v.2 - w.2)

/-- Vec2.scale from src/common/Vec2.ts: `set(a * v[0], a * v[1], out)`. -/
def Vec2.scale (v : Vec2) (a : ℝ) : Vec2 := (a * v.1, a * v.2)

/-- Vec2.mulNumVec2 from src/common/Vec2.ts: `set(a * b[0], a * b[1], out)`. -/
def Vec2.mulNumVec2 (a : ℝ) (b : Vec2) : Vec2 := (a * b.1, a * b.2)

/-- Vec2.addMul from src/common/Vec2.ts: `out = src + (a * v)`. -/
def Vec2.addMul (src : Vec2) (a : ℝ) (v : Vec2) : Vec2 :=
  (src.1 + a * v.1, src.2 + a * v.2)

/-- Vec2.subMul from src/common/Vec2.ts: `out = src - (a * v)`. -/
def Vec2.subMul (src : Vec2) (a : ℝ) (v : Vec2) : Vec2 :=
  (src.1 - a * v.1, src.2 - a * v.2)

/-- Vec2.addCombine from src/common/Vec2.ts: `out = src + (a * v + b * w)`. -/
def Vec2.addCombine (src : Vec2) (a : ℝ) (v : Vec2) (b : ℝ) (w : Vec2) : Vec2 :=
  (src.1 + (a * v.1 + b * w.1), src.2 + (a * v.2 + b * w.2))

/-- Vec2.subCombine from src/common/Vec2.ts: `out = src - (a * v + b * w)`. -/
def Vec2.subCombine (src : Vec2) (a : ℝ) (v : Vec2) (b : ℝ) (w : Vec2) : Vec2 :=
  (src.1 - (a * v.1 + b * w.1), src.2 - (a * v.2 + b * w.2))

/-- Vec2.dot from src/common/Vec2.ts. -/
def Vec2.dot (v w : Vec2) : ℝ := v.1 * w.1 + v.2 * w.2

/-- Vec2.crossVec2Vec2 from src/common/Vec2.ts: `v[0] * w[1] - v[1] * w[0]`. -/
def Vec2.crossVec2Vec2 (v w : Vec2) : ℝ := v.1 * w.2 - v.2 * w.1

/-- Vec2.crossNumVec2 from src/common/Vec2.ts: `set(-v * w[1], v * w[0], out)`. -/
def Vec2.crossNumVec2 (v : ℝ) (w : Vec2) : Vec2 := (-v * w.2, v * w.1)

/-- Vec2.lengthSquared from src/common/Vec2.ts. -/
def Vec2.lengthSquared (v : Vec2) : ℝ := v.1 * v.1 + v.2 * v.2

/-- Vec2.length from src/common/Vec2.ts: `math_sqrt(v[0] * v[0] + v[1] * v[1])`. -/
def Vec2.length (v : Vec2) : ℝ := Real.sqrt (v.1 * v.1 + v.2 * v.2)

/-- Vec2.abs from src/common/Vec2.ts. -/
def Vec2.abs (v : Vec2) : Vec2 := (|v.1|, |v.2|)

/-- The (sin, cos) rotation record of src/common/Rot.ts; spec section 3:
"Rotation — (sin, cos) pair representing an angle." -/
structure Rot where
  s : ℝ
  c : ℝ

/-- The transform record of src/common/Transform.ts; spec section 3:
"Transform — (position: vector, rotation)." -/
structure Transform where
  p : Vec2
  q : Rot

/-- rotation from src/common/Matrix.ts: `{ s: math_sin(angle), c: math_cos(angle) }`. -/
def Matrix.rotation (angle : ℝ) : Rot := ⟨Real.sin angle, Real.cos angle⟩

/-- addVec2 from src/common/Matrix.ts, exactly as written there:
`out[0] = v[0] + w[0]; out[1] = v[0] + w[1]`. -/
def Matrix.addVec2 (v w : Vec2) : Vec2 := (v.1 + w.1, v.1 + w.2)

/-- rotVec2 from src/common/Matrix.ts. -/
def Matrix.rotVec2 (q : Rot) (v : Vec2) : Vec2 :=
  (q.c * v.1 - q.s * v.2, q.s * v.1 + q.c * v.2)

/-- transformVec2 from src/common/Matrix.ts. -/
def Matrix.transformVec2 (xf : Transform) (v : Vec2) : Vec2 :=
  (xf.q.c * v.1 - xf.q.s * v.2 + xf.p.1, xf.q.s * v.1 + xf.q.c * v.2 + xf.p.2)

/-- detransformVec2 from src/common/Matrix.ts. -/
def Matrix.detransformVec2 (xf : Transform) (v : Vec2) : Vec2 :=
  (xf.q.c * (v.1 - xf.p.1) + xf.q.s * (v.2 - xf.p.2),
   -xf.q.s * (v.1 - xf.p.1) + xf.q.c * (v.2 - xf.p.2))

/-- A 2-by-2 matrix in column-major order, src/common/Mat22.ts. -/
structure Mat22 where
  ex : Vec2
  ey : Vec2

/-- The determinant `a * d - b * c` that Mat22.getInverse and Mat22.solve
compute locally (`a = ex[0], b = ey[0], c = ex[1], d = ey[1]`). -/
def Mat22.det (m : Mat22) : ℝ := m.ex.1 * m.ey.2 - m.ey.1 * m.ex.2

/-- Mat22.getInverse from src/common/Mat22.ts.  The reciprocal is taken
only under the guard `det !== 0.0`, as in the source. -/
def Mat22.getInverse (m : Mat22) : Mat22 :=
  let det0 := Mat22.det m
  let det := if det0 ≠ 0 then 1 / det0 else det0
  ⟨(det * m.ey.2, -det * m.ex.2), (-det * m.ey.1, det * m.ex.1)⟩

/-- Mat22.solve from src/common/Mat22.ts. -/
def Mat22.solve (m : Mat22) (v : Vec2) : Vec2 :=
  let det0 := Mat22.det m
  let det := if det0 ≠ 0 then 1 / det0 else det0
  (det * (m.ey.2 * v.1 - m.ey.1 * v.2), det * (m.ex.1 * v.2 - m.ex.2 * v.1))

/-- A 3-by-3 matrix in column-major order, src/common/Mat33.ts. -/
structure Mat33 where
  ex : Vec3
  ey : Vec3
  ez : Vec3

/-- Vec3.dot from src/common/Vec3.ts. -/
def Vec3.dot (v w : Vec3) : ℝ := v.1 * w.1 + v.2.1 * w.2.1 + v.2.2 * w.2.2

/-- Vec3.cross from src/common/Vec3.ts. -/
def Vec3.cross (v w : Vec3) : Vec3 :=
  (v.2.1 * w.2.2 - v.2.2 * w.2.1,
   v.2.2 * w.1 - v.1 * w.2.2,
   v.1 * w.2.1 - v.2.1 * w.1)

/-- The determinant `ex . (ey x ez)` that Mat33.solve33 computes from
components. -/
def Mat33.det33 (m : Mat33) : ℝ :=
  m.ex.1 * (m.ey.2.1 * m.ez.2.2 - m.ey.2.2 * m.ez.2.1)
    + m.ex.2.1 * (m.ey.2.2 * m.ez.1 - m.ey.1 * m.ez.2.2)
    + m.ex.2.2 * (m.ey.1 * m.ez.2.1 - m.ey.2.1 * m.ez.1)

/-- The upper 2-by-2 determinant `a11 * a22 - a12 * a21` that Mat33.solve22
and Mat33.getInverse22 compute locally. -/
def Mat33.det22 (m : Mat33) : ℝ := m.ex.1 * m.ey.2.1 - m.ey.1 * m.ex.2.1

/-- Mat33.solve33 from src/common/Mat33.ts.  The source recomputes the
`cross_*` values for `r.x` with the same expressions that produced the
determinant; the recomputation is literal, so it is shared here. -/
def Mat33.solve33 (m : Mat33) (v : Vec3) : Vec3 :=
  let det0 := Mat33.det33 m
  let det := if det0 ≠ 0 then 1 / det0 else det0
  (det * (v.1 * (m.ey.2.1 * m.ez.2.2 - m.ey.2.2 * m.ez.2.1)
      + v.2.1 * (m.ey.2.2 * m.ez.1 - m.ey.1 * m.ez.2.2)
      + v.2.2 * (m.ey.1 * m.ez.2.1 - m.ey.2.1 * m.ez.1)),
   det * (m.ex.1 * (v.2.1 * m.ez.2.2 - v.2.2 * m.ez.2.1)
      + m.ex.2.1 * (v.2.2 * m.ez.1 - v.1 * m.ez.2.2)
      + m.ex.2.2 * (v.1 * m.ez.2.1 - v.2.1 * m.ez.1)),
   det * (m.ex.1 * (m.ey.2.1 * v.2.2 - m.ey.2.2 * v.2.1)
      + m.ex.2.1 * (m.ey.2.2 * v.1 - m.ey.1 * v.2.2)
      + m.ex.2.2 * (m.ey.1 * v.2.1 - m.ey.2.1 * v.1)))

/-- Mat33.solve22 from src/common/Mat33.ts. -/
def Mat33.solve22 (m : Mat33) (v : Vec2) : Vec2 :=
  let det0 := Mat33.det22 m
  let det := if det0 ≠ 0 then 1 / det0 else det0
  (det * (m.ey.2.1 * v.1 - m.ey.1 * v.2), det * (m.ex.1 * v.2 - m.ex.2.1 * v.1))

/-- Mat33.getInverse22 from src/common/Mat33.ts: writes the inverse of the
upper 2-by-2 block into M and zeroes the rest. -/
def Mat33.getInverse22 (m : Mat33) : Mat33 :=
  let det0 := Mat33.det22 m
  let det := if det0 ≠ 0 then 1 / det0 else det0
  ⟨(det * m.ey.2.1, -det * m.ex.2.1, 0),
   (-det * m.ey.1, det * m.ex.1, 0),
   (0, 0, 0)⟩

/-- Mat33.getSymInverse33 from src/common/Mat33.ts. -/
def Mat33.getSymInverse33 (m : Mat33) : Mat33 :=
  let det0 := Vec3.dot m.ex (Vec3.cross m.ey m.ez)
  let det := if det0 ≠ 0 then 1 / det0 else det0
  let a11 := m.ex.1
  let a12 := m.ey.1
  let a13 := m.ez.1
  let a22 := m.ey.2.1
  let a23 := m.ez.2.1
  let a33 := m.ez.2.2
  let ex : Vec3 := (det * (a22 * a33 - a23 * a23),
                    det * (a13 * a23 - a12 * a33),
                    det * (a12 * a23 - a13 * a22))
  let ey : Vec3 := (ex.2.1, det * (a11 * a33 - a13 * a13), det * (a13 * a12 - a11 * a23))
  let ez : Vec3 := (ex.2.2, ey.2.2, det * (a11 * a22 - a12 * a12))
  ⟨ex, ey, ez⟩

/-- An axis-aligned bounding box with (finite) real coordinates,
src/collision/AABB.ts. -/
structure AABB where
  lowerBound : Vec2
  upperBound : Vec2

/-- AABB.getPerimeter from src/collision/AABB.ts. -/
def AABB.getPerimeter (a : AABB) : ℝ :=
  2 * (a.upperBound.1 - a.lowerBound.1 + a.upperBound.2 - a.lowerBound.2)

/-- AABB.combine from src/collision/AABB.ts (the two-argument form, which
writes the union of `a` and `b` into the receiver). -/
def AABB.combine (a b : AABB) : AABB :=
  ⟨(min a.lowerBound.1 b.lowerBound.1, min a.lowerBound.2 b.lowerBound.2),
   (max b.upperBound.1 a.upperBound.1, max b.upperBound.2 a.upperBound.2)⟩

/-- AABB.combinedPerimeter from src/collision/AABB.ts. -/
def AABB.combinedPerimeter (a b : AABB) : ℝ :=
  2 * (max a.upperBound.1 b.upperBound.1 - min a.lowerBound.1 b.lowerBound.1
    + (max a.upperBound.2 b.upperBound.2 - min a.lowerBound.2 b.lowerBound.2))

/-!
## A model of JavaScript numbers

`JNum` is a JavaScript number: NaN, +Infinity, -Infinity, or a finite value
(idealized as an exact real; IEEE-754 rounding is not modelled, and the two
signed zeros are collapsed into one).  The operators below follow the
ECMAScript semantics for the cases they distinguish; `x / 0` is mapped to
the `+0` divisor case.  `undefined` — the result of reading an absent
property, such as `v['x']` on an array-backed vector — is converted by
`ToNumber` to NaN in every arithmetic or relational operator that the
embedded code applies to it, and is modelled as `JNum.nan` at the read
(see `Vec2.getStrProp`); `Number.isFinite`, which does not convert its
argument, gets the possibly-absent value as an `Option JNum`.
-/

inductive JNum where
  | nan : JNum
  | inf : JNum
  | ninf : JNum
  | fin (x : ℝ) : JNum

/-- JavaScript subtraction on the extended numbers. -/
def JNum.sub : JNum → JNum → JNum
  | nan, _ => nan
  | _, nan => nan
  | inf, inf => nan
  | inf, _ => inf
  | ninf, ninf => nan
  | ninf, _ => ninf
  | fin _, inf => ninf
  | fin _, ninf => inf
  | fin a, fin b => fin (a - b)

/-- JavaScript addition on the extended numbers. -/
def JNum.add : JNum → JNum → JNum
  | nan, _ => nan
  | _, nan => nan
  | inf, ninf => nan
  | inf, _ => inf
  | ninf, inf => nan
  | ninf, _ => ninf
  | fin _, inf => inf
  | fin _, ninf => ninf
  | fin a, fin b => fin (a + b)

/-- JavaScript multiplication on the extended numbers. -/
def JNum.mul : JNum → JNum → JNum
  | nan, _ => nan
  | _, nan => nan
  | inf, inf => inf
  | inf, ninf => ninf
  | ninf, inf => ninf
  | ninf, ninf => inf
  | inf, fin b => if b = 0 then nan else if b < 0 then ninf else inf
  | fin a, inf => if a = 0 then nan else if a < 0 then ninf else inf
  | ninf, fin b => if b = 0 then nan else if b < 0 then inf else ninf
  | fin a, ninf => if a = 0 then nan else if a < 0 then inf else ninf
  | fin a, fin b => fin (a * b)

/-- JavaScript division on the extended numbers (`x / +0` conventions for a
zero divisor, as the signed zeros are collapsed). -/
def JNum.div : JNum → JNum → JNum
  | nan, _ => nan
  | _, nan => nan
  | inf, inf => nan
  | inf, ninf => nan
  | ninf, inf => nan
  | ninf, ninf => nan
  | inf, fin b => if b < 0 then ninf else inf
  | ninf, fin b => if b < 0 then inf else ninf
  | fin _, inf => fin 0
  | fin _, ninf => fin 0
  | fin a, fin b =>
      if b = 0 then (if a = 0 then nan else if a < 0 then ninf else inf)
      else fin (a / b)

/-- The JavaScript `<` operator: false whenever NaN is involved. -/
def JNum.lt : JNum → JNum → Bool
  | nan, _ => false
  | _, nan => false
  | ninf, ninf => false
  | ninf, _ => true
  | _, ninf => false
  | inf, _ => false
  | _, inf => true
  | fin a, fin b => decide (a < b)

/-- The JavaScript `>` operator: `a > b` holds iff `b < a` (false on NaN). -/
def JNum.gt (a b : JNum) : Bool := JNum.lt b a

/-- The JavaScript `>=` operator: false whenever NaN is involved. -/
def JNum.ge : JNum → JNum → Bool
  | nan, _ => false
  | _, nan => false
  | inf, _ => true
  | _, inf => false
  | _, ninf => true
  | ninf, _ => false
  | fin a, fin b => decide (b ≤ a)

/-- `Math.min`: NaN-propagating minimum. -/
def JNum.jsMin : JNum → JNum → JNum
  | nan, _ => nan
  | _, nan => nan
  | ninf, _ => ninf
  | _, ninf => ninf
  | inf, b => b
  | a, inf => a
  | fin a, fin b => fin (min a b)

/-- `Number.isFinite` applied to a possibly-absent (`undefined`) value: it
does not convert its argument, so it is true exactly on a present finite
number. -/
def jsNumberIsFinite : Option JNum → Bool
  | some (JNum.fin _) => true
  | _ => false

/-- A JavaScript-number-valued vector `[number, number]` (Vec2Value). -/
abbrev JVec2 := JNum × JNum

/-- A JavaScript-number-valued 3-vector `[number, number, number]`. -/
abbrev JVec3 := JNum × JNum × JNum

/-- Vec2.isValid from src/common/Vec2.ts:
`Number.isFinite(obj[0]) && Number.isFinite(obj[1])` (the `null`/`undefined`
object cases are outside this well-typed model). -/
def Vec2.isValid (v : JVec2) : Bool :=
  jsNumberIsFinite (some v.1) && jsNumberIsFinite (some v.2)

/-- JVec2 subtraction, Vec2.sub lifted to JavaScript numbers. -/
def JVec2.sub (v w : JVec2) : JVec2 := (v.1.sub w.1, v.2.sub w.2)

/-- JVec2 squared length, Vec2.lengthSquared lifted to JavaScript numbers. -/
def JVec2.lengthSquared (v : JVec2) : JNum := (v.1.mul v.1).add (v.2.mul v.2)

/-- An AABB whose bounds are JavaScript-number-valued vectors. -/
structure JAABB where
  lowerBound : JVec2
  upperBound : JVec2

/-- AABB.isValid from src/collision/AABB.ts:
`Vec2.isValid(lowerBound) && Vec2.isValid(upperBound) &&
Vec2.lengthSquared(Vec2.sub(upperBound, lowerBound)) >= 0`. -/
def AABB.isValid (a : JAABB) : Bool :=
  Vec2.isValid a.lowerBound && Vec2.isValid a.upperBound
    && (JVec2.lengthSquared (JVec2.sub a.upperBound a.lowerBound)).ge (JNum.fin 0)

/-- A Mat22 whose columns carry JavaScript numbers. -/
structure JMat22 where
  ex : JVec2
  ey : JVec2

/-- Mat22.isValid from src/common/Mat22.ts. -/
def Mat22.isValid (m : JMat22) : Bool := Vec2.isValid m.ex && Vec2.isValid m.ey

/-- A Mat33 whose columns carry JavaScript numbers. -/
structure JMat33 where
  ex : JVec3
  ey : JVec3
  ez : JVec3

/-- Reading the `x`/`y`/`z` property of an array-backed `Vec3Value`
`[number, number, number]`: the property is absent, so the read yields
`undefined`. -/
def JVec3.getObjProp (_ : JVec3) : Option JNum := none

/-- Vec3.isValid from src/common/Vec3.ts:
`Number.isFinite(obj.x) && Number.isFinite(obj.y) && Number.isFinite(obj.z)`
— note that it reads the `x`/`y`/`z` properties, which an array-backed
`Vec3Value` does not carry. -/
def Vec3.isValid (v : JVec3) : Bool :=
  jsNumberIsFinite (JVec3.getObjProp v) && jsNumberIsFinite (JVec3.getObjProp v)
    && jsNumberIsFinite (JVec3.getObjProp v)

/-- Mat33.isValid from src/common/Mat33.ts. -/
def Mat33.isValid (m : JMat33) : Bool :=
  Vec3.isValid m.ex && Vec3.isValid m.ey && Vec3.isValid m.ez

/-- `console.assert(cond, message)` logs the message exactly when `cond` is
falsy. -/
def consoleAssertFires (cond : Bool) : Bool := !cond

/-- Whether `Vec2.assert(o)` (src/common/Vec2.ts, with the ASSERT flag
enabled) prints "Invalid Vec2!": the source is
`console.assert(!isValid(o), 'Invalid Vec2!', o)`. -/
def Vec2.assertFires (v : JVec2) : Bool := consoleAssertFires (!Vec2.isValid v)

/-- Whether `AABB.assert(o)` (src/collision/AABB.ts) prints "Invalid AABB!":
the source is `console.assert(!AABB.isValid(o), 'Invalid AABB!', o)`. -/
def AABB.assertFires (a : JAABB) : Bool := consoleAssertFires (!AABB.isValid a)

/-- Whether `Mat22.assert(o)` (src/common/Mat22.ts) prints "Invalid Mat22!". -/
def Mat22.assertFires (m : JMat22) : Bool := consoleAssertFires (!Mat22.isValid m)

/-- Whether `Mat33.assert(o)` (src/common/Mat33.ts) prints "Invalid Mat33!". -/
def Mat33.assertFires (m : JMat33) : Bool := consoleAssertFires (!Mat33.isValid m)

/-!
## AABB.rayCast

The loop variable `f` of `AABB.rayCast` (src/collision/AABB.ts) ranges over
the string keys `'x'` and `'y'`, while the vectors involved are arrays
indexed by `0` and `1`.  Every `v[f]` read therefore yields `undefined`,
which the arithmetic and relational operators convert to NaN; this is the
value `Vec2.getStrProp` returns.  The two loop iterations (`f = 'x'`, then
`f = 'y'`) run the same body — even the parallel-axis test reads `absD[0]`
in both — so both are the same function, `AABB.rayCastIter`, of the mutable
state (tmin, tmax, normal).  `normal[f] = s` writes a string property that
the array's numeric slots never see, so the returned normal stays the
`Vec2.zero` that `Vec2.setZero(normal)` leaves.
-/

/-- Reading `v[f]` for `f` one of the string keys `'x'`, `'y'` on an
array-backed `Vec2Value`: `undefined`, converted to NaN by every numeric
operator applied to it in `rayCast`. -/
def Vec2.getStrProp (_ : Vec2) : JNum := JNum.nan

/-- RayCastInput from src/collision/AABB.ts. -/
structure RayCastInput where
  p1 : Vec2
  p2 : Vec2
  maxFraction : ℝ

/-- RayCastOutput from src/collision/AABB.ts (the fraction is the computed
`tmin`, a JavaScript number). -/
structure RayCastOutput where
  normal : Vec2
  fraction : JNum

/-- One iteration of the `for f` loop of AABB.rayCast: `none` when the
iteration hits an early `return false`, otherwise the updated state. -/
def AABB.rayCastIter (EPSILON : ℝ) (box : AABB) (p d absD : Vec2)
    (st : JNum × JNum × Vec2) : Option (JNum × JNum × Vec2) :=
  let tmin := st.1
  let tmax := st.2.1
  let normal := st.2.2
  if absD.1 < EPSILON then
    -- Parallel: `p[f] < lowerBound[f] || upperBound[f] < p[f]`
    if (Vec2.getStrProp p).lt (Vec2.getStrProp box.lowerBound)
        || (Vec2.getStrProp box.upperBound).lt (Vec2.getStrProp p) then
      none
    else
      some (tmin, tmax, normal)
  else
    let inv_d := (JNum.fin 1).div (Vec2.getStrProp d)
    let t1 := ((Vec2.getStrProp box.lowerBound).sub (Vec2.getStrProp p)).mul inv_d
    let t2 := ((Vec2.getStrProp box.upperBound).sub (Vec2.getStrProp p)).mul inv_d
    -- `s` is only ever written to `normal[f]`, a string property.
    let swapped := if t1.gt t2 then (t2, t1) else (t1, t2)
    let t1 := swapped.1
    let t2 := swapped.2
    let pushed := if t1.gt tmin then (t1, Vec2.zero) else (tmin, normal)
    let tmin := pushed.1
    let normal := pushed.2
    let tmax := tmax.jsMin t2
    if tmin.gt tmax then none else some (tmin, tmax, normal)

/-- AABB.rayCast from src/collision/AABB.ts, with the two loop iterations
unrolled. -/
def AABB.rayCast (EPSILON : ℝ) (box : AABB) (input : RayCastInput) :
    Bool × Option RayCastOutput :=
  let p := input.p1
  let d := Vec2.sub input.p2 input.p1
  let absD := Vec2.abs d
  match AABB.rayCastIter EPSILON box p d absD (JNum.ninf, JNum.inf, Vec2.zero) with
  | none => (false, none)
  | some st1 =>
    match AABB.rayCastIter EPSILON box p d absD st1 with
    | none => (false, none)
    | some st2 =>
      let tmin := st2.1
      let normal := st2.2.2
      if tmin.lt (JNum.fin 0) || (JNum.fin input.maxFraction).lt tmin then
        (false, none)
      else
        (true, some ⟨normal, tmin⟩)

/-!
## Joint solver kernels

Each joint's `initVelocityConstraints` / `solvePositionConstraints` reads
the attached bodies' `c_position` / `c_velocity` snapshots and the joint's
own fields, and writes solver-temp fields, the accumulated impulses and the
body velocities (or positions).  The embedded state records all of these;
the methods become functions from state to state.  `step` is the solver's
TimeStep.
-/

/-- The TimeStep fields the embedded joint code reads (dynamics/Solver.ts). -/
structure TimeStep where
  dt : ℝ
  inv_dt : ℝ
  dtRatio : ℝ
  warmStarting : Bool

/-- Modelled from the spec: src/common/Rot.ts is not among the provided
sources.  `Rot.neo(angle)` builds the (sin, cos) pair of the angle, as the
spec's section 3 describes and exactly as `rotation(angle)` in
src/common/Matrix.ts computes it. -/
def Rot.neo (angle : ℝ) : Rot := Matrix.rotation angle

/-- Modelled from the spec: `Rot.mulVec2(q, v)` applies the rotation to the
vector, with the formula of `rotVec2` in src/common/Matrix.ts. -/
def Rot.mulVec2 (q : Rot) (v : Vec2) : Vec2 := Matrix.rotVec2 q v

/-- Modelled from the spec: `Rot.mulSub(q, v, w) = q * (v - w)` (used by
RopeJoint.initVelocityConstraints). -/
def Rot.mulSub (q : Rot) (v w : Vec2) : Vec2 := Matrix.rotVec2 q (Vec2.sub v w)

/-- The FrictionJoint state (src/dynamics/joint/FrictionJoint.ts) together
with the body snapshots its solver methods touch.  `aA`/`aB` are the bodies'
`c_position.a`, `vA`/`wA`/`vB`/`wB` their `c_velocity`; `m_localCenterA/B`
and the inverse masses are the values `initVelocityConstraints` copies from
the bodies. -/
structure FrictionJoint where
  m_localAnchorA : Vec2
  m_localAnchorB : Vec2
  m_linearImpulse : Vec2
  m_angularImpulse : ℝ
  m_maxForce : ℝ
  m_maxTorque : ℝ
  m_rA : Vec2
  m_rB : Vec2
  m_localCenterA : Vec2
  m_localCenterB : Vec2
  m_invMassA : ℝ
  m_invMassB : ℝ
  m_invIA : ℝ
  m_invIB : ℝ
  m_linearMass : Mat22
  m_angularMass : ℝ
  aA : ℝ
  aB : ℝ
  vA : Vec2
  vB : Vec2
  wA : ℝ
  wB : ℝ

/-- FrictionJoint.getReactionForce:
`Vec2.mulNumVec2(inv_dt, this.m_linearImpulse)`. -/
def FrictionJoint.getReactionForce (j : FrictionJoint) (inv_dt : ℝ) : Vec2 :=
  Vec2.mulNumVec2 inv_dt j.m_linearImpulse

/-- FrictionJoint.getReactionTorque: `inv_dt * this.m_angularImpulse`. -/
def FrictionJoint.getReactionTorque (j : FrictionJoint) (inv_dt : ℝ) : ℝ :=
  inv_dt * j.m_angularImpulse

/-- FrictionJoint.initVelocityConstraints from
src/dynamics/joint/FrictionJoint.ts. -/
def FrictionJoint.initVelocityConstraints (j : FrictionJoint) (step : TimeStep) :
    FrictionJoint :=
  let qA := Rot.neo j.aA
  let qB := Rot.neo j.aB
  let m_rA := Rot.mulVec2 qA (Vec2.sub j.m_localAnchorA j.m_localCenterA)
  let m_rB := Rot.mulVec2 qB (Vec2.sub j.m_localAnchorB j.m_localCenterB)
  let mA := j.m_invMassA
  let mB := j.m_invMassB
  let iA := j.m_invIA
  let iB := j.m_invIB
  let kex : Vec2 := (mA + mB + iA * m_rA.2 * m_rA.2 + iB * m_rB.2 * m_rB.2,
                     -iA * m_rA.1 * m_rA.2 - iB * m_rB.1 * m_rB.2)
  let K : Mat22 := ⟨kex, (kex.2, mA + mB + iA * m_rA.1 * m_rA.1 + iB * m_rB.1 * m_rB.1)⟩
  let m_linearMass := Mat22.getInverse K
  let am := iA + iB
  let m_angularMass := if am > 0 then 1 / am else am
  if step.warmStarting then
    -- Scale impulses to support a variable time step.
    let m_linearImpulse := Vec2.scale j.m_linearImpulse step.dtRatio
    let m_angularImpulse := j.m_angularImpulse * step.dtRatio
    let P := Vec2.create m_linearImpulse.1 m_linearImpulse.2
    let vA := Vec2.subMul j.vA mA P
    let wA := j.wA - iA * (Vec2.crossVec2Vec2 m_rA P + m_angularImpulse)
    let vB := Vec2.addMul j.vB mB P
    let wB := j.wB + iB * (Vec2.crossVec2Vec2 m_rB P + m_angularImpulse)
    { j with m_rA := m_rA, m_rB := m_rB, m_linearMass := m_linearMass,
             m_angularMass := m_angularMass, m_linearImpulse := m_linearImpulse,
             m_angularImpulse := m_angularImpulse, vA := vA, wA := wA, vB := vB, wB := wB }
  else
    { j with m_rA := m_rA, m_rB := m_rB, m_linearMass := m_linearMass,
             m_angularMass := m_angularMass, m_linearImpulse := Vec2.zero,
             m_angularImpulse := 0 }

/-- The WeldJoint state (src/dynamics/joint/WeldJoint.ts) together with the
body snapshots its solver methods touch. -/
structure WeldJoint where
  m_localAnchorA : Vec2
  m_localAnchorB : Vec2
  m_referenceAngle : ℝ
  m_frequencyHz : ℝ
  m_dampingRatio : ℝ
  m_impulse : Vec3
  m_bias : ℝ
  m_gamma : ℝ
  m_rA : Vec2
  m_rB : Vec2
  m_localCenterA : Vec2
  m_localCenterB : Vec2
  m_invMassA : ℝ
  m_invMassB : ℝ
  m_invIA : ℝ
  m_invIB : ℝ
  m_mass : Mat33
  aA : ℝ
  aB : ℝ
  vA : Vec2
  vB : Vec2
  wA : ℝ
  wB : ℝ

/-- WeldJoint.getReactionForce:
`Vec2.create(this.m_impulse[0] * inv_dt, this.m_impulse[1] * inv_dt)`. -/
def WeldJoint.getReactionForce (j : WeldJoint) (inv_dt : ℝ) : Vec2 :=
  Vec2.create (j.m_impulse.1 * inv_dt) (j.m_impulse.2.1 * inv_dt)

/-- WeldJoint.getReactionTorque: `inv_dt * this.m_impulse[2]`. -/
def WeldJoint.getReactionTorque (j : WeldJoint) (inv_dt : ℝ) : ℝ :=
  inv_dt * j.m_impulse.2.2

/-- WeldJoint.initVelocityConstraints from src/dynamics/joint/WeldJoint.ts.
`math_PI` is the real pi. -/
def WeldJoint.initVelocityConstraints (j : WeldJoint) (step : TimeStep) : WeldJoint :=
  let qA := Rot.neo j.aA
  let qB := Rot.neo j.aB
  let m_rA := Rot.mulVec2 qA (Vec2.sub j.m_localAnchorA j.m_localCenterA)
  let m_rB := Rot.mulVec2 qB (Vec2.sub j.m_localAnchorB j.m_localCenterB)
  let mA := j.m_invMassA
  let mB := j.m_invMassB
  let iA := j.m_invIA
  let iB := j.m_invIB
  let kexey := -m_rA.2 * m_rA.1 * iA - m_rB.2 * m_rB.1 * iB
  let kez0 := -m_rA.2 * iA - m_rB.2 * iB
  let kez1 := m_rA.1 * iA + m_rB.1 * iB
  let K : Mat33 :=
    ⟨(mA + mB + m_rA.2 * m_rA.2 * iA + m_rB.2 * m_rB.2 * iB, kexey, kez0),
     (kexey, mA + mB + m_rA.1 * m_rA.1 * iA + m_rB.1 * m_rB.1 * iB, kez1),
     (kez0, kez1, iA + iB)⟩
  let mgb : Mat33 × ℝ × ℝ :=
    if j.m_frequencyHz > 0 then
      let m1 := Mat33.getInverse22 K
      let invM := iA + iB
      let m := if invM > 0 then 1 / invM else 0
      let C := j.aB - j.aA - j.m_referenceAngle
      let omega := 2 * Real.pi * j.m_frequencyHz
      let dcoef := 2 * m * j.m_dampingRatio * omega
      let k := m * omega * omega
      let h := step.dt
      let gamma0 := h * (dcoef + h * k)
      let m_gamma := if gamma0 ≠ 0 then 1 / gamma0 else 0
      let m_bias := C * h * k * m_gamma
      let invM2 := invM + m_gamma
      (⟨m1.ex, m1.ey, (m1.ez.1, m1.ez.2.1, if invM2 ≠ 0 then 1 / invM2 else 0)⟩,
       m_gamma, m_bias)
    else if K.ez.2.2 = 0 then
      (Mat33.getInverse22 K, 0, 0)
    else
      (Mat33.getSymInverse33 K, 0, 0)
  let m_mass := mgb.1
  let m_gamma := mgb.2.1
  let m_bias := mgb.2.2
  if step.warmStarting then
    -- Scale impulses to support a variable time step:
    -- Vec3.set(impulse[0] * dtRatio, impulse[1] * dtRatio, impulse[2], impulse)
    let m_impulse : Vec3 :=
      (j.m_impulse.1 * step.dtRatio, j.m_impulse.2.1 * step.dtRatio, j.m_impulse.2.2)
    let P := Vec2.create m_impulse.1 m_impulse.2.1
    let vA := Vec2.subMul j.vA mA P
    let wA := j.wA - iA * (Vec2.crossVec2Vec2 m_rA P + m_impulse.2.2)
    let vB := Vec2.addMul j.vB mB P
    let wB := j.wB + iB * (Vec2.crossVec2Vec2 m_rB P + m_impulse.2.2)
    { j with m_rA := m_rA, m_rB := m_rB, m_mass := m_mass, m_gamma := m_gamma,
             m_bias := m_bias, m_impulse := m_impulse, vA := vA, wA := wA,
             vB := vB, wB := wB }
  else
    { j with m_rA := m_rA, m_rB := m_rB, m_mass := m_mass, m_gamma := m_gamma,
             m_bias := m_bias, m_impulse := (0, 0, 0) }

/-- The PulleyJoint state (the PulleyJoint class in
src/dynamics/joint/FrictionJoint.ts) together with the body snapshots its
solver methods touch.  `cA`/`aA`/`cB`/`aB` are the bodies' `c_position`. -/
structure PulleyJoint where
  m_groundAnchorA : Vec2
  m_groundAnchorB : Vec2
  m_localAnchorA : Vec2
  m_localAnchorB : Vec2
  m_lengthA : ℝ
  m_lengthB : ℝ
  m_ratio : ℝ
  m_constant : ℝ
  m_impulse : ℝ
  m_uA : Vec2
  m_uB : Vec2
  m_rA : Vec2
  m_rB : Vec2
  m_localCenterA : Vec2
  m_localCenterB : Vec2
  m_invMassA : ℝ
  m_invMassB : ℝ
  m_invIA : ℝ
  m_invIB : ℝ
  m_mass : ℝ
  cA : Vec2
  aA : ℝ
  cB : Vec2
  aB : ℝ
  vA : Vec2
  vB : Vec2
  wA : ℝ
  wB : ℝ

/-- PulleyJoint.getReactionForce:
`f = Vec2.mulNumVec2(this.m_impulse, this.m_uB); Vec2.scale(f, inv_dt, f)`. -/
def PulleyJoint.getReactionForce (j : PulleyJoint) (inv_dt : ℝ) : Vec2 :=
  Vec2.scale (Vec2.mulNumVec2 j.m_impulse j.m_uB) inv_dt

/-- PulleyJoint.getReactionTorque: `return 0.0`. -/
def PulleyJoint.getReactionTorque (_ : PulleyJoint) (_ : ℝ) : ℝ := 0

/-- PulleyJoint.initVelocityConstraints from the PulleyJoint class in
src/dynamics/joint/FrictionJoint.ts; `linearSlop` is `Settings.linearSlop`. -/
def PulleyJoint.initVelocityConstraints (linearSlop : ℝ) (j : PulleyJoint)
    (step : TimeStep) : PulleyJoint :=
  let qA := Rot.neo j.aA
  let qB := Rot.neo j.aB
  let m_rA := Rot.mulVec2 qA (Vec2.sub j.m_localAnchorA j.m_localCenterA)
  let m_rB := Rot.mulVec2 qB (Vec2.sub j.m_localAnchorB j.m_localCenterB)
  -- Get the pulley axes.
  let uA0 := Vec2.sub (Vec2.add j.cA m_rA) j.m_groundAnchorA
  let uB0 := Vec2.sub (Vec2.add j.cB m_rB) j.m_groundAnchorB
  let lengthA := Vec2.length uA0
  let lengthB := Vec2.length uB0
  let m_uA := if lengthA > 10 * linearSlop then Vec2.scale uA0 (1 / lengthA) else Vec2.zero
  let m_uB := if lengthB > 10 * linearSlop then Vec2.scale uB0 (1 / lengthB) else Vec2.zero
  let ruA := Vec2.crossVec2Vec2 m_rA m_uA
  let ruB := Vec2.crossVec2Vec2 m_rB m_uB
  let mA := j.m_invMassA + j.m_invIA * ruA * ruA
  let mB := j.m_invMassB + j.m_invIB * ruB * ruB
  let mass0 := mA + j.m_ratio * j.m_ratio * mB
  let m_mass := if mass0 > 0 then 1 / mass0 else mass0
  if step.warmStarting then
    -- Scale impulses to support variable time steps.
    let m_impulse := j.m_impulse * step.dtRatio
    let PA := Vec2.mulNumVec2 (-m_impulse) m_uA
    let PB := Vec2.mulNumVec2 (-j.m_ratio * m_impulse) m_uB
    let vA := Vec2.addMul j.vA j.m_invMassA PA
    let wA := j.wA + j.m_invIA * Vec2.crossVec2Vec2 m_rA PA
    let vB := Vec2.addMul j.vB j.m_invMassB PB
    let wB := j.wB + j.m_invIB * Vec2.crossVec2Vec2 m_rB PB
    { j with m_rA := m_rA, m_rB := m_rB, m_uA := m_uA, m_uB := m_uB,
             m_mass := m_mass, m_impulse := m_impulse,
             vA := vA, wA := wA, vB := vB, wB := wB }
  else
    { j with m_rA := m_rA, m_rB := m_rB, m_uA := m_uA, m_uB := m_uB,
             m_mass := m_mass, m_impulse := 0 }

/-- PulleyJoint.solvePositionConstraints from the PulleyJoint class in
src/dynamics/joint/FrictionJoint.ts, exactly as the source computes it: the
pulley axes `uA`/`uB` start from the stored `this.m_rA`/`this.m_rB`, while
the freshly computed `rA`/`rB` feed the effective mass and the impulse
application.  Returns the updated positions and
`linearError < Settings.linearSlop`. -/
def PulleyJoint.solvePositionConstraints (linearSlop : ℝ) (j : PulleyJoint) :
    PulleyJoint × Bool :=
  let qA := Rot.neo j.aA
  let qB := Rot.neo j.aB
  let rA := Rot.mulVec2 qA (Vec2.sub j.m_localAnchorA j.m_localCenterA)
  let rB := Rot.mulVec2 qB (Vec2.sub j.m_localAnchorB j.m_localCenterB)
  -- Get the pulley axes (from the stored m_rA / m_rB).
  let uA0 := Vec2.sub (Vec2.add j.cA j.m_rA) j.m_groundAnchorA
  let uB0 := Vec2.sub (Vec2.add j.cB j.m_rB) j.m_groundAnchorB
  let lengthA := Vec2.length uA0
  let lengthB := Vec2.length uB0
  let uA := if lengthA > 10 * linearSlop then Vec2.scale uA0 (1 / lengthA) else Vec2.zero
  let uB := if lengthB > 10 * linearSlop then Vec2.scale uB0 (1 / lengthB) else Vec2.zero
  let ruA := Vec2.crossVec2Vec2 rA uA
  let ruB := Vec2.crossVec2Vec2 rB uB
  let mA := j.m_invMassA + j.m_invIA * ruA * ruA
  let mB := j.m_invMassB + j.m_invIB * ruB * ruB
  let mass0 := mA + j.m_ratio * j.m_ratio * mB
  let mass := if mass0 > 0 then 1 / mass0 else mass0
  let C := j.m_constant - lengthA - j.m_ratio * lengthB
  let linearError := |C|
  let impulse := -mass * C
  let PA := Vec2.mulNumVec2 (-impulse) uA
  let PB := Vec2.mulNumVec2 (-j.m_ratio * impulse) uB
  let cA := Vec2.addMul j.cA j.m_invMassA PA
  let aA := j.aA + j.m_invIA * Vec2.crossVec2Vec2 rA PA
  let cB := Vec2.addMul j.cB j.m_invMassB PB
  let aB := j.aB + j.m_invIB * Vec2.crossVec2Vec2 rB PB
  ({ j with cA := cA, aA := aA, cB := cB, aB := aB },
   decide (linearError < linearSlop))

/-- PulleyJoint.solvePositionConstraints as the claim describes it: the
axes `uA`/`uB` are `(cA + m_rA - groundAnchorA)` and
`(cB + m_rB - groundAnchorB)` with the `m_rA`/`m_rB` stored by
`initVelocityConstraints`, and the fresh `rA`/`rB` are used only for the
effective mass and for applying the impulse. -/
def PulleyJoint.solvePositionConstraintsStoredAxes (linearSlop : ℝ)
    (j : PulleyJoint) : PulleyJoint × Bool :=
  let qA := Rot.neo j.aA
  let qB := Rot.neo j.aB
  let rA := Rot.mulVec2 qA (Vec2.sub j.m_localAnchorA j.m_localCenterA)
  let rB := Rot.mulVec2 qB (Vec2.sub j.m_localAnchorB j.m_localCenterB)
  let uA0 := Vec2.sub (Vec2.add j.cA j.m_rA) j.m_groundAnchorA
  let uB0 := Vec2.sub (Vec2.add j.cB j.m_rB) j.m_groundAnchorB
  let lengthA := Vec2.length uA0
  let lengthB := Vec2.length uB0
  let uA := if lengthA > 10 * linearSlop then Vec2.scale uA0 (1 / lengthA) else Vec2.zero
  let uB := if lengthB > 10 * linearSlop then Vec2.scale uB0 (1 / lengthB) else Vec2.zero
  let ruA := Vec2.crossVec2Vec2 rA uA
  let ruB := Vec2.crossVec2Vec2 rB uB
  let mA := j.m_invMassA + j.m_invIA * ruA * ruA
  let mB := j.m_invMassB + j.m_invIB * ruB * ruB
  let mass0 := mA + j.m_ratio * j.m_ratio * mB
  let mass := if mass0 > 0 then 1 / mass0 else mass0
  let C := j.m_constant - lengthA - j.m_ratio * lengthB
  let linearError := |C|
  let impulse := -mass * C
  let PA := Vec2.mulNumVec2 (-impulse) uA
  let PB := Vec2.mulNumVec2 (-j.m_ratio * impulse) uB
  let cA := Vec2.addMul j.cA j.m_invMassA PA
  let aA := j.aA + j.m_invIA * Vec2.crossVec2Vec2 rA PA
  let cB := Vec2.addMul j.cB j.m_invMassB PB
  let aB := j.aB + j.m_invIB * Vec2.crossVec2Vec2 rB PB
  ({ j with cA := cA, aA := aA, cB := cB, aB := aB },
   decide (linearError < linearSlop))

/-- The variant of PulleyJoint.solvePositionConstraints that the spec's open
question says implementations should prefer: the pulley axes built from the
freshly computed `rA`/`rB` instead of the stored `m_rA`/`m_rB`. -/
def PulleyJoint.solvePositionConstraintsFreshAxes (linearSlop : ℝ)
    (j : PulleyJoint) : PulleyJoint × Bool :=
  let qA := Rot.neo j.aA
  let qB := Rot.neo j.aB
  let rA := Rot.mulVec2 qA (Vec2.sub j.m_localAnchorA j.m_localCenterA)
  let rB := Rot.mulVec2 qB (Vec2.sub j.m_localAnchorB j.m_localCenterB)
  let uA0 := Vec2.sub (Vec2.add j.cA rA) j.m_groundAnchorA
  let uB0 := Vec2.sub (Vec2.add j.cB rB) j.m_groundAnchorB
  let lengthA := Vec2.length uA0
  let lengthB := Vec2.length uB0
  let uA := if lengthA > 10 * linearSlop then Vec2.scale uA0 (1 / lengthA) else Vec2.zero
  let uB := if lengthB > 10 * linearSlop then Vec2.scale uB0 (1 / lengthB) else Vec2.zero
  let ruA := Vec2.crossVec2Vec2 rA uA
  let ruB := Vec2.crossVec2Vec2 rB uB
  let mA := j.m_invMassA + j.m_invIA * ruA * ruA
  let mB := j.m_invMassB + j.m_invIB * ruB * ruB
  let mass0 := mA + j.m_ratio * j.m_ratio * mB
  let mass := if mass0 > 0 then 1 / mass0 else mass0
  let C := j.m_constant - lengthA - j.m_ratio * lengthB
  let linearError := |C|
  let impulse := -mass * C
  let PA := Vec2.mulNumVec2 (-impulse) uA
  let PB := Vec2.mulNumVec2 (-j.m_ratio * impulse) uB
  let cA := Vec2.addMul j.cA j.m_invMassA PA
  let aA := j.aA + j.m_invIA * Vec2.crossVec2Vec2 rA PA
  let cB := Vec2.addMul j.cB j.m_invMassB PB
  let aB := j.aB + j.m_invIB * Vec2.crossVec2Vec2 rB PB
  ({ j with cA := cA, aA := aA, cB := cB, aB := aB },
   decide (linearError < linearSlop))

/-- The RopeJoint state (src/dynamics/joint/RopeJoint.ts) together with the
body snapshots its solver methods touch.  `m_state` holds the LimitState
enum value (0 = inactiveLimit, 2 = atUpperLimit). -/
structure RopeJoint where
  m_localAnchorA : Vec2
  m_localAnchorB : Vec2
  m_maxLength : ℝ
  m_mass : ℝ
  m_impulse : ℝ
  m_length : ℝ
  m_state : ℕ
  m_u : Vec2
  m_rA : Vec2
  m_rB : Vec2
  m_localCenterA : Vec2
  m_localCenterB : Vec2
  m_invMassA : ℝ
  m_invMassB : ℝ
  m_invIA : ℝ
  m_invIB : ℝ
  cA : Vec2
  aA : ℝ
  cB : Vec2
  aB : ℝ
  vA : Vec2
  vB : Vec2
  wA : ℝ
  wB : ℝ

/-- RopeJoint.getReactionForce:
`f = Vec2.mulNumVec2(this.m_impulse, this.m_u); Vec2.scale(f, inv_dt, f)`. -/
def RopeJoint.getReactionForce (j : RopeJoint) (inv_dt : ℝ) : Vec2 :=
  Vec2.scale (Vec2.mulNumVec2 j.m_impulse j.m_u) inv_dt

/-- RopeJoint.getReactionTorque: `return 0.0`. -/
def RopeJoint.getReactionTorque (_ : RopeJoint) (_ : ℝ) : ℝ := 0

/-- RopeJoint.initVelocityConstraints from src/dynamics/joint/RopeJoint.ts;
`linearSlop` is `Settings.linearSlop`.  When the computed length is at most
the slop the method zeroes `m_u`, `m_mass`, `m_impulse` and returns early,
leaving the velocities untouched. -/
def RopeJoint.initVelocityConstraints (linearSlop : ℝ) (j : RopeJoint)
    (step : TimeStep) : RopeJoint :=
  let qA := Rot.neo j.aA
  let qB := Rot.neo j.aB
  let m_rA := Rot.mulSub qA j.m_localAnchorA j.m_localCenterA
  let m_rB := Rot.mulSub qB j.m_localAnchorB j.m_localCenterB
  let u0 := Vec2.addCombine Vec2.zero 1 j.cB 1 m_rB
  let u1 := Vec2.subCombine u0 1 j.cA 1 m_rA
  let m_length := Vec2.length u1
  let C := m_length - j.m_maxLength
  let m_state : ℕ := if C > 0 then 2 else 0
  if m_length > linearSlop then
    let m_u := Vec2.scale u1 (1 / m_length)
    let crA := Vec2.crossVec2Vec2 m_rA m_u
    let crB := Vec2.crossVec2Vec2 m_rB m_u
    let invMass := j.m_invMassA + j.m_invIA * crA * crA
      + j.m_invMassB + j.m_invIB * crB * crB
    let m_mass := if invMass ≠ 0 then 1 / invMass else 0
    if step.warmStarting then
      -- Scale the impulse to support a variable time step.
      let m_impulse := j.m_impulse * step.dtRatio
      let P := Vec2.mulNumVec2 m_impulse m_u
      let vA := Vec2.subMul j.vA j.m_invMassA P
      let wA := j.wA - j.m_invIA * Vec2.crossVec2Vec2 m_rA P
      let vB := Vec2.addMul j.vB j.m_invMassB P
      let wB := j.wB + j.m_invIB * Vec2.crossVec2Vec2 m_rB P
      { j with m_rA := m_rA, m_rB := m_rB, m_u := m_u, m_length := m_length,
               m_state := m_state, m_mass := m_mass, m_impulse := m_impulse,
               vA := vA, wA := wA, vB := vB, wB := wB }
    else
      { j with m_rA := m_rA, m_rB := m_rB, m_u := m_u, m_length := m_length,
               m_state := m_state, m_mass := m_mass, m_impulse := 0 }
  else
    { j with m_rA := m_rA, m_rB := m_rB, m_u := Vec2.zero, m_length := m_length,
             m_state := m_state, m_mass := 0, m_impulse := 0 }

/-- The length that RopeJoint.initVelocityConstraints computes and stores in
`m_length`: the norm of `cB + rB - (cA + rA)` with the freshly rotated
anchors. -/
def RopeJoint.computedLength (j : RopeJoint) : ℝ :=
  Vec2.length (Vec2.subCombine
    (Vec2.addCombine Vec2.zero 1 j.cB 1
      (Rot.mulSub (Rot.neo j.aB) j.m_localAnchorB j.m_localCenterB))
    1 j.cA 1 (Rot.mulSub (Rot.neo j.aA) j.m_localAnchorA j.m_localCenterA))

/-- A concrete pulley state whose stored `m_rA`/`m_rB` (the zero vector)
differ from the freshly computed `rA`/`rB` = (1, 0): both bodies at angle 0
with local anchors (1, 0) and centers at the origin, both ground anchors at
the origin, cA = (4, 0), cB = (3, 0), unit inverse masses, zero inverse
inertia, ratio 1, constant 0. -/
def pulleySample : PulleyJoint where
  m_groundAnchorA := (0, 0)
  m_groundAnchorB := (0, 0)
  m_localAnchorA := (1, 0)
  m_localAnchorB := (1, 0)
  m_lengthA := 0
  m_lengthB := 0
  m_ratio := 1
  m_constant := 0
  m_impulse := 0
  m_uA := (0, 0)
  m_uB := (0, 0)
  m_rA := (0, 0)
  m_rB := (0, 0)
  m_localCenterA := (0, 0)
  m_localCenterB := (0, 0)
  m_invMassA := 1
  m_invMassB := 1
  m_invIA := 0
  m_invIB := 0
  m_mass := 0
  cA := (4, 0)
  aA := 0
  cB := (3, 0)
  aB := 0
  vA := (0, 0)
  vB := (0, 0)
  wA := 0
  wB := 0

/-- A concrete weld state with accumulated impulse (0, 0, 1): only the
angular component is nonzero, so warm-start scaling by dtRatio = 2 should
turn it into (0, 0, 2). -/
def weldSample : WeldJoint where
  m_localAnchorA := (0, 0)
  m_localAnchorB := (0, 0)
  m_referenceAngle := 0
  m_frequencyHz := 0
  m_dampingRatio := 0
  m_impulse := (0, 0, 1)
  m_bias := 0
  m_gamma := 0
  m_rA := (0, 0)
  m_rB := (0, 0)
  m_localCenterA := (0, 0)
  m_localCenterB := (0, 0)
  m_invMassA := 0
  m_invMassB := 0
  m_invIA := 0
  m_invIB := 0
  m_mass := ⟨(0, 0, 0), (0, 0, 0), (0, 0, 0)⟩
  aA := 0
  aB := 0
  vA := (0, 0)
  vB := (0, 0)
  wA := 0
  wB := 0

/-- A concrete rope state with accumulated impulse 5 and current length 3
(cB = (3, 0), everything else at the origin). -/
def ropeSample : RopeJoint where
  m_localAnchorA := (0, 0)
  m_localAnchorB := (0, 0)
  m_maxLength := 10
  m_mass := 0
  m_impulse := 5
  m_length := 0
  m_state := 0
  m_u := (0, 0)
  m_rA := (0, 0)
  m_rB := (0, 0)
  m_localCenterA := (0, 0)
  m_localCenterB := (0, 0)
  m_invMassA := 0
  m_invMassB := 0
  m_invIA := 0
  m_invIB := 0
  cA := (0, 0)
  aA := 0
  cB := (3, 0)
  aB := 0
  vA := (0, 0)
  vB := (0, 0)
  wA := 0
  wB := 0

/-!
## Helper lemmas
-/

theorem sqrt_nine : Real.sqrt 9 = 3 := by
  rw [show (9 : ℝ) = 3 ^ 2 by norm_num]
  exact Real.sqrt_sq (by norm_num)

theorem sqrt_sixteen : Real.sqrt 16 = 4 := by
  rw [show (16 : ℝ) = 4 ^ 2 by norm_num]
  exact Real.sqrt_sq (by norm_num)

theorem sqrt_twentyfive : Real.sqrt 25 = 5 := by
  rw [show (25 : ℝ) = 5 ^ 2 by norm_num]
  exact Real.sqrt_sq (by norm_num)

/-!
## The claims
-/

/-- C2: for every pair of vectors v and w, addVec2 in src/common/Matrix.ts
computes out[0] = v[0] + w[0] and out[1] = v[0] + w[1] — the second
component reads v[0], not v[1] — so its result differs from the
componentwise sum `Vec2.add` already at v = (0, 1), w = (0, 0). -/
theorem addVec2_second_component_reads_v0 :
    (∀ v w : Vec2, Matrix.addVec2 v w = (v.1 + w.1, v.1 + w.2))
    ∧ Matrix.addVec2 (0, 1) (0, 0) ≠ Vec2.add (0, 1) (0, 0) := by
  refine ⟨fun v w => rfl, ?_⟩
  simp [Matrix.addVec2, Vec2.add, Prod.ext_iff]

/-- C9: for all AABBs a and b, AABB.combinedPerimeter a b equals the
perimeter (getPerimeter) of the AABB obtained by combine(a, b), so the SAH
insertion cost based on combinedPerimeter agrees with the perimeter of the
actually combined node. -/
theorem combinedPerimeter_eq_getPerimeter_combine :
    ∀ a b : AABB, AABB.combinedPerimeter a b = AABB.getPerimeter (AABB.combine a b) := by
  intro a b
  simp only [AABB.combinedPerimeter, AABB.getPerimeter, AABB.combine]
  rw [max_comm b.upperBound.1 a.upperBound.1, max_comm b.upperBound.2 a.upperBound.2]
  ring

/-- C10: with the ASSERT flag enabled, each validity assertion helper
(Vec2.assert, AABB.assert, Mat22.assert, Mat33.assert) calls console.assert
on the negation of the corresponding isValid check, so the "Invalid ..."
message fires exactly when isValid returns true and stays silent exactly on
invalid input; concretely, the assertion fires on the valid vector [0, 0]
and is silent on the invalid vector [NaN, 0]. -/
theorem assert_fires_iff_isValid :
    (∀ v : JVec2, Vec2.assertFires v = Vec2.isValid v)
    ∧ (∀ a : JAABB, AABB.assertFires a = AABB.isValid a)
    ∧ (∀ m : JMat22, Mat22.assertFires m = Mat22.isValid m)
    ∧ (∀ m : JMat33, Mat33.assertFires m = Mat33.isValid m)
    ∧ Vec2.assertFires (JNum.fin 0, JNum.fin 0) = true
    ∧ Vec2.assertFires (JNum.nan, JNum.fin 0) = false := by
  refine ⟨fun v => ?_, fun a => ?_, fun m => ?_, fun m => ?_, rfl, rfl⟩ <;>
    simp [Vec2.assertFires, AABB.assertFires, Mat22.assertFires, Mat33.assertFires,
      consoleAssertFires]

/-- C5: for FrictionJoint, WeldJoint, RopeJoint and PulleyJoint,
getReactionForce(inv_dt) returns inv_dt times the accumulated translational
impulse (a vector for Friction/Weld, the scalar accumulator times the
constraint direction for Rope/Pulley) and getReactionTorque(inv_dt) returns
inv_dt times the accumulated rotational impulse, which is zero for the two
joints with no rotational accumulator. -/
theorem reaction_equals_inv_dt_times_impulse :
    (∀ (j : FrictionJoint) (inv_dt : ℝ),
        j.getReactionForce inv_dt
            = (inv_dt * j.m_linearImpulse.1, inv_dt * j.m_linearImpulse.2)
          ∧ j.getReactionTorque inv_dt = inv_dt * j.m_angularImpulse)
    ∧ (∀ (j : WeldJoint) (inv_dt : ℝ),
        j.getReactionForce inv_dt = (inv_dt * j.m_impulse.1, inv_dt * j.m_impulse.2.1)
          ∧ j.getReactionTorque inv_dt = inv_dt * j.m_impulse.2.2)
    ∧ (∀ (j : RopeJoint) (inv_dt : ℝ),
        j.getReactionForce inv_dt
            = (inv_dt * (j.m_impulse * j.m_u.1), inv_dt * (j.m_impulse * j.m_u.2))
          ∧ j.getReactionTorque inv_dt = 0)
    ∧ (∀ (j : PulleyJoint) (inv_dt : ℝ),
        j.getReactionForce inv_dt
            = (inv_dt * (j.m_impulse * j.m_uB.1), inv_dt * (j.m_impulse * j.m_uB.2))
          ∧ j.getReactionTorque inv_dt = 0) := by
  refine ⟨fun j t => ⟨rfl, rfl⟩, fun j t => ⟨?_, rfl⟩, fun j t => ⟨rfl, rfl⟩,
    fun j t => ⟨rfl, rfl⟩⟩
  simp [WeldJoint.getReactionForce, Vec2.create, Prod.ext_iff, mul_comm]

/-- C8: for every transform whose rotation is a unit rotation
(s^2 + c^2 = 1) and every vector v, detransformVec2 inverts
transformVec2 exactly: world-to-local is the inverse of local-to-world. -/
theorem detransform_inverts_transform (xf : Transform) (v : Vec2)
    (h : xf.q.s ^ 2 + xf.q.c ^ 2 = 1) :
    Matrix.detransformVec2 xf (Matrix.transformVec2 xf v) = v := by
  obtain ⟨⟨p1, p2⟩, ⟨s, c⟩⟩ := xf
  obtain ⟨v1, v2⟩ := v
  simp only at h
  simp only [Matrix.detransformVec2, Matrix.transformVec2, Prod.ext_iff]
  constructor
  · linear_combination v1 * h
  · linear_combination v2 * h

/-- Witness for C8: the unit rotation (s, c) = (3/5, 4/5) at position
(5, 7) round-trips the vector (2, 3). -/
theorem detransform_inverts_transform_witness :
    (Transform.mk (5, 7) ⟨3 / 5, 4 / 5⟩).q.s ^ 2
        + (Transform.mk (5, 7) ⟨3 / 5, 4 / 5⟩).q.c ^ 2 = 1
    ∧ Matrix.detransformVec2 (Transform.mk (5, 7) ⟨3 / 5, 4 / 5⟩)
        (Matrix.transformVec2 (Transform.mk (5, 7) ⟨3 / 5, 4 / 5⟩) (2, 3)) = (2, 3) :=
  ⟨by norm_num, detransform_inverts_transform _ _ (by norm_num)⟩

/-- C6: whenever the relevant determinant is zero, Mat22.solve,
Mat33.solve22 and Mat33.solve33 return the zero vector and
Mat22.getInverse / Mat33.getInverse22 return the zero matrix: the
reciprocal 1/det is taken only under the guard `det !== 0.0`, so the
singular case degenerates to a zero result instead of an error; the
singular matrix [[1, 2], [2, 4]] is a concrete instance. -/
theorem singular_solve_returns_zero :
    (∀ (m : Mat22) (v : Vec2), Mat22.det m = 0 → Mat22.solve m v = (0, 0))
    ∧ (∀ m : Mat22, Mat22.det m = 0 → Mat22.getInverse m = ⟨(0, 0), (0, 0)⟩)
    ∧ (∀ (m : Mat33) (v : Vec2), Mat33.det22 m = 0 → Mat33.solve22 m v = (0, 0))
    ∧ (∀ m : Mat33, Mat33.det22 m = 0
        → Mat33.getInverse22 m = ⟨(0, 0, 0), (0, 0, 0), (0, 0, 0)⟩)
    ∧ (∀ (m : Mat33) (v : Vec3), Mat33.det33 m = 0 → Mat33.solve33 m v = (0, 0, 0))
    ∧ Mat22.solve ⟨(1, 2), (2, 4)⟩ (5, 6) = (0, 0) := by
  have h22 : ∀ (m : Mat22) (v : Vec2), Mat22.det m = 0 → Mat22.solve m v = (0, 0) := by
    intro m v h
    simp [Mat22.solve, h]
  refine ⟨h22, ?_, ?_, ?_, ?_, h22 _ _ (by norm_num [Mat22.det])⟩
  · intro m h
    simp [Mat22.getInverse, h]
  · intro m v h
    simp [Mat33.solve22, h]
  · intro m h
    simp [Mat33.getInverse22, h]
  · intro m v h
    simp [Mat33.solve33, h]

/-- Every loop iteration of AABB.rayCast leaves tmin at -Infinity and
returns the updated state rather than an early false: with tmin = -Infinity,
the parallel test compares NaN values (false), and in the slab branch
t1 = t2 = NaN never exceeds tmin while tmin > tmax compares -Infinity
against NaN (false). -/
theorem rayCastIter_keeps_ninf (EPSILON : ℝ) (box : AABB) (p d absD : Vec2)
    (tmax : JNum) (normal : Vec2) :
    ∃ tmax2 normal2,
      AABB.rayCastIter EPSILON box p d absD (JNum.ninf, tmax, normal)
        = some (JNum.ninf, tmax2, normal2) := by
  unfold AABB.rayCastIter
  by_cases h : absD.1 < EPSILON
  · rw [if_pos h]
    exact ⟨tmax, normal, rfl⟩
  · rw [if_neg h]
    exact ⟨JNum.nan, normal, by cases tmax <;> rfl⟩

/-- C3: AABB.rayCast returns false for every input and never writes the
output: every `v[f]` slab read with the string keys 'x'/'y' yields
undefined (NaN under the numeric operators), so tmin stays -Infinity
through both iterations and the final `tmin < 0.0` test always triggers
the false return. -/
theorem rayCast_always_false (EPSILON : ℝ) (box : AABB) (input : RayCastInput) :
    AABB.rayCast EPSILON box input = (false, none) := by
  obtain ⟨t2, n2, h1⟩ := rayCastIter_keeps_ninf EPSILON box input.p1
    (Vec2.sub input.p2 input.p1) (Vec2.abs (Vec2.sub input.p2 input.p1))
    JNum.inf Vec2.zero
  obtain ⟨t3, n3, h2⟩ := rayCastIter_keeps_ninf EPSILON box input.p1
    (Vec2.sub input.p2 input.p1) (Vec2.abs (Vec2.sub input.p2 input.p1)) t2 n2
  simp only [AABB.rayCast, h1, h2]
  rfl

/-- C7: AABB.isValid (src/collision/AABB.ts) accepts every AABB with finite
coordinates — the check `lengthSquared(upperBound - lowerBound) >= 0` can
only fail on non-finite values — so it accepts the unsorted box with
lowerBound = [1, 0], upperBound = [0, 0], contradicting the documented
"Verify that the bounds are sorted" and the spec invariant
lowerBound ≤ upperBound. -/
theorem aabb_isValid_ignores_bound_order :
    (∀ l1 l2 u1 u2 : ℝ,
        AABB.isValid ⟨(JNum.fin l1, JNum.fin l2), (JNum.fin u1, JNum.fin u2)⟩ = true)
    ∧ AABB.isValid ⟨(JNum.fin 1, JNum.fin 0), (JNum.fin 0, JNum.fin 0)⟩ = true
    ∧ (1 : ℝ) > 0 := by
  have h : ∀ l1 l2 u1 u2 : ℝ,
      AABB.isValid ⟨(JNum.fin l1, JNum.fin l2), (JNum.fin u1, JNum.fin u2)⟩ = true := by
    intro l1 l2 u1 u2
    simp only [AABB.isValid, Vec2.isValid, jsNumberIsFinite, JVec2.lengthSquared,
      JVec2.sub, JNum.sub, JNum.mul, JNum.add, JNum.ge, Bool.and_true, Bool.true_and,
      decide_eq_true_eq]
    have h1 := mul_self_nonneg (u1 - l1)
    have h2 := mul_self_nonneg (u2 - l2)
    linarith
  exact ⟨h, h 1 0 0 0, by norm_num⟩

/-- C4: with warm starting on, FrictionJoint, PulleyJoint and RopeJoint
scale every component of their accumulated impulse by step.dtRatio in
initVelocityConstraints (RopeJoint on its non-degenerate path, where the
current length exceeds the slop), but WeldJoint scales only the two linear
components and leaves the angular component unscaled: from the accumulated
impulse (0, 0, 1) with dtRatio = 2 it produces (0, 0, 1) instead of
(0, 0, 2). -/
theorem warm_start_scales_impulse_by_dtRatio :
    (∀ (j : FrictionJoint) (dt idt r : ℝ),
        (j.initVelocityConstraints ⟨dt, idt, r, true⟩).m_linearImpulse
            = (r * j.m_linearImpulse.1, r * j.m_linearImpulse.2)
          ∧ (j.initVelocityConstraints ⟨dt, idt, r, true⟩).m_angularImpulse
            = j.m_angularImpulse * r)
    ∧ (∀ (slop : ℝ) (j : PulleyJoint) (dt idt r : ℝ),
        (PulleyJoint.initVelocityConstraints slop j ⟨dt, idt, r, true⟩).m_impulse
          = j.m_impulse * r)
    ∧ (∀ (slop : ℝ) (j : RopeJoint) (dt idt r : ℝ),
        RopeJoint.computedLength j > slop
          → (RopeJoint.initVelocityConstraints slop j ⟨dt, idt, r, true⟩).m_impulse
            = j.m_impulse * r)
    ∧ (∀ (j : WeldJoint) (dt idt r : ℝ),
        (j.initVelocityConstraints ⟨dt, idt, r, true⟩).m_impulse
          = (j.m_impulse.1 * r, j.m_impulse.2.1 * r, j.m_impulse.2.2))
    ∧ (weldSample.initVelocityConstraints ⟨1, 1, 2, true⟩).m_impulse = (0, 0, 1)
    ∧ (RopeJoint.initVelocityConstraints 1 ropeSample ⟨1, 1, 2, true⟩).m_impulse = 5 * 2 := by
  have hW : ∀ (j : WeldJoint) (dt idt r : ℝ),
      (j.initVelocityConstraints ⟨dt, idt, r, true⟩).m_impulse
        = (j.m_impulse.1 * r, j.m_impulse.2.1 * r, j.m_impulse.2.2) := by
    intro j dt idt r
    simp [WeldJoint.initVelocityConstraints]
  have hR : ∀ (slop : ℝ) (j : RopeJoint) (dt idt r : ℝ),
      RopeJoint.computedLength j > slop
        → (RopeJoint.initVelocityConstraints slop j ⟨dt, idt, r, true⟩).m_impulse
          = j.m_impulse * r := by
    intro slop j dt idt r h
    rw [RopeJoint.computedLength] at h
    simp only [RopeJoint.initVelocityConstraints]
    rw [if_pos h]
    simp
  refine ⟨?_, ?_, hR, hW, ?_, ?_⟩
  · intro j dt idt r
    constructor <;> simp [FrictionJoint.initVelocityConstraints, Vec2.scale]
  · intro slop j dt idt r
    simp [PulleyJoint.initVelocityConstraints]
  · rw [hW weldSample 1 1 2]
    norm_num [weldSample]
  · rw [hR 1 ropeSample 1 1 2 ?_]
    · norm_num [ropeSample]
    · norm_num [RopeJoint.computedLength, ropeSample, Rot.mulSub, Rot.neo,
        Matrix.rotation, Matrix.rotVec2, Vec2.sub, Vec2.addCombine, Vec2.subCombine,
        Vec2.zero, Vec2.length, sqrt_nine]

/-- C1: PulleyJoint.solvePositionConstraints computes the pulley axes uA/uB
from (cA + m_rA - groundAnchorA) and (cB + m_rB - groundAnchorB) with the
m_rA/m_rB stored by initVelocityConstraints, using the freshly computed
rA/rB only for the effective mass and for applying the impulse: the source
equals that reading verbatim, and at a state whose stored m_rA/m_rB are
stale it produces a different position than the fresh-axes variant the spec
recommends. -/
theorem pulley_solvePosition_uses_stored_rA :
    (∀ (slop : ℝ) (j : PulleyJoint),
        PulleyJoint.solvePositionConstraints slop j
          = PulleyJoint.solvePositionConstraintsStoredAxes slop j)
    ∧ (PulleyJoint.solvePositionConstraints (1 / 10) pulleySample).1.cA
        ≠ (PulleyJoint.solvePositionConstraintsFreshAxes (1 / 10) pulleySample).1.cA := by
  refine ⟨fun slop j => rfl, ?_⟩
  have hstored : (PulleyJoint.solvePositionConstraints (1 / 10) pulleySample).1.cA
      = (1 / 2, 0) := by
    norm_num [PulleyJoint.solvePositionConstraints, pulleySample, Rot.neo,
      Matrix.rotation, Rot.mulVec2, Matrix.rotVec2, Vec2.sub, Vec2.add, Vec2.scale,
      Vec2.zero, Vec2.length, Vec2.crossVec2Vec2, Vec2.mulNumVec2, Vec2.addMul,
      sqrt_sixteen, sqrt_nine]
  have hfresh : (PulleyJoint.solvePositionConstraintsFreshAxes (1 / 10) pulleySample).1.cA
      = (-(1 / 2), 0) := by
    norm_num [PulleyJoint.solvePositionConstraintsFreshAxes, pulleySample, Rot.neo,
      Matrix.rotation, Rot.mulVec2, Matrix.rotVec2, Vec2.sub, Vec2.add, Vec2.scale,
      Vec2.zero, Vec2.length, Vec2.crossVec2Vec2, Vec2.mulNumVec2, Vec2.addMul,
      sqrt_twentyfive, sqrt_sixteen]
  rw [hstored, hfresh]
  norm_num [Prod.ext_iff]

end





